import Mathlib

/-!
Verification of the Mark validator/codec
(`src/packages/modules/src/mark/Mark.utils.ts`).

The module is embedded shallowly: the external collaborators
(`StreamUtils`, `ContentStream.utils`, `Mark.verifyData`,
`SchemaUtils.verifyContentProperties`) are opaque black boxes, modelled as
fields of a `MarkOps` record over abstract types.  Fallible TypeScript
functions (those that `throw`) become `Except`-valued Lean functions.
JavaScript truthiness of the `content` / `request` fields is modelled by a
Boolean-valued truthiness test supplied with the operations; a concrete
`JsValue` type with the standard JavaScript falsy values instantiates it.
-/

namespace MarkUtils

/-- Error taxonomy of the module (`SDKErrors` plus propagated failures of
nested validators, which are opaque to this core and carried unchanged). -/
inductive SDKError (ε : Type) where
  | ERROR_CONTENT_NOT_PROVIDED : SDKError ε
  | ERROR_MC_NOT_PROVIDED : SDKError ε
  | ERROR_CONTENT_UNVERIFIABLE : SDKError ε
  | ERROR_DECOMPRESSION_ARRAY (entity : String) : SDKError ε
  | nested (e : ε) : SDKError ε
deriving DecidableEq, Repr

/-- The Mark aggregate: a content-stream artifact paired with the
content-stream-request it was produced from (`IMark`). -/
structure IMark (C R : Type) where
  content : C
  request : R
deriving DecidableEq, Repr

/-- A schema consumed by `verifyStructure`: only its structural definition
`schema.schema` is ever read. -/
structure ISchema (SchemaDef : Type) where
  schema : SchemaDef
deriving DecidableEq, Repr

/-- The external collaborators the Mark module delegates to, together with
the JavaScript truthiness tests used by the `if (input.content)` /
`if (input.request)` guards.  `V` is the type of compressed sub-entity
values (the elements of the compressed array). -/
structure MarkOps (C R V ε Contents SchemaDef : Type) where
  contentTruthy : C → Bool
  requestTruthy : R → Bool
  streamErrorCheck : C → Except ε Unit
  streamCompress : C → V
  streamDecompress : V → C
  mcErrorCheck : R → Except ε Unit
  mcCompress : R → V
  mcDecompress : V → R
  verifyData : IMark C R → Bool
  verifyContentProperties : Contents → SchemaDef → Bool
  requestContentContents : R → Contents

/-- A value handed to `decompress`: either a JavaScript array of compressed
elements or some non-array value (`Array.isArray` fails on it). -/
inductive JsInput (V : Type) where
  | arr (elems : List V)
  | nonArray
deriving DecidableEq, Repr

variable {C R V ε Contents SchemaDef : Type}

/-- `errorCheck` from `Mark.utils.ts`: content truthy → delegate to the
stream validator, else `ERROR_CONTENT_NOT_PROVIDED`; then request truthy →
delegate to the content-stream-request validator, else
`ERROR_MC_NOT_PROVIDED`; then `verifyData` must hold, else
`ERROR_CONTENT_UNVERIFIABLE`.  Nested failures propagate unchanged. -/
def errorCheck (ops : MarkOps C R V ε Contents SchemaDef) (input : IMark C R) :
    Except (SDKError ε) Unit :=
  if ops.contentTruthy input.content then
    match ops.streamErrorCheck input.content with
    | .error e => .error (.nested e)
    | .ok _ =>
      if ops.requestTruthy input.request then
        match ops.mcErrorCheck input.request with
        | .error e => .error (.nested e)
        | .ok _ =>
          if ops.verifyData input then .ok ()
          else .error .ERROR_CONTENT_UNVERIFIABLE
      else .error .ERROR_MC_NOT_PROVIDED
  else .error .ERROR_CONTENT_NOT_PROVIDED

/-- `compress` from `Mark.utils.ts`: run `errorCheck` first, then emit the
positional pair `[compressedRequest, compressedContent]`. -/
def compress (ops : MarkOps C R V ε Contents SchemaDef) (stream : IMark C R) :
    Except (SDKError ε) (List V) :=
  match errorCheck ops stream with
  | .error e => .error e
  | .ok _ => .ok [ops.mcCompress stream.request, ops.streamCompress stream.content]

/-- `decompress` from `Mark.utils.ts`: reject anything that is not an array
of length exactly 2 with `ERROR_DECOMPRESSION_ARRAY` naming the entity
(the source passes the string "Cord Mark"); otherwise rebuild the Mark from
positions 0 (request) and 1 (content). -/
def decompress (ops : MarkOps C R V ε Contents SchemaDef) (stream : JsInput V) :
    Except (SDKError ε) (IMark C R) :=
  match stream with
  | .nonArray => .error (.ERROR_DECOMPRESSION_ARRAY "Cord Mark")
  | .arr elems =>
    if h : elems.length = 2 then
      .ok { request := ops.mcDecompress (elems.get ⟨0, by omega⟩),
            content := ops.streamDecompress (elems.get ⟨1, by omega⟩) }
    else .error (.ERROR_DECOMPRESSION_ARRAY "Cord Mark")

/-- `verifyStructure` from `Mark.utils.ts`: run `errorCheck`, then forward
`mark.request.content.contents` and `schema.schema` to the external schema
matcher and return its verdict. -/
def verifyStructure (ops : MarkOps C R V ε Contents SchemaDef)
    (mark : IMark C R) (schema : ISchema SchemaDef) :
    Except (SDKError ε) Bool :=
  match errorCheck ops mark with
  | .error e => .error e
  | .ok _ =>
    .ok (ops.verifyContentProperties
      (ops.requestContentContents mark.request) schema.schema)

/-- A JavaScript runtime value, for making the truthiness guards concrete:
`undefined`, `null`, `false`, `0` and the empty string are falsy, every
object is truthy. -/
inductive JsValue where
  | undef
  | null
  | boolean (b : Bool)
  | number (n : Int)
  | str (s : String)
  | object (id : Nat)
deriving DecidableEq, Repr

/-- JavaScript truthiness on `JsValue`. -/
def jsTruthy : JsValue → Bool
  | .undef => false
  | .null => false
  | .boolean b => b
  | .number n => n != 0
  | .str s => s != ""
  | .object _ => true

/-- A concrete instantiation of the external collaborators over `JsValue`,
with identity codecs; the two nested validators and the cross-check are
parameters so that each failure mode can be exercised. -/
def demoOps (scheck : JsValue → Except Unit Unit)
    (rcheck : JsValue → Except Unit Unit)
    (vd : IMark JsValue JsValue → Bool) :
    MarkOps JsValue JsValue JsValue Unit Nat Nat where
  contentTruthy := jsTruthy
  requestTruthy := jsTruthy
  streamErrorCheck := scheck
  streamCompress := fun c => c
  streamDecompress := fun v => v
  mcErrorCheck := rcheck
  mcCompress := fun r => r
  mcDecompress := fun v => v
  verifyData := vd
  verifyContentProperties := fun c s => c == s
  requestContentContents := fun _ => 0

/-- Claim C2: `errorCheck` completes exactly when the content is truthy and
accepted by the stream validator, the request is truthy and accepted by the
content-stream-request validator, and `verifyData` holds; each distinct
failure cause yields its distinct error kind, checked in that fixed order
with short-circuit at the first failure. -/
theorem errorCheck_cases (ops : MarkOps C R V ε Contents SchemaDef)
    (m : IMark C R) :
    (errorCheck ops m = .ok () ↔
      ops.contentTruthy m.content = true ∧
      ops.streamErrorCheck m.content = .ok () ∧
      ops.requestTruthy m.request = true ∧
      ops.mcErrorCheck m.request = .ok () ∧
      ops.verifyData m = true) ∧
    (ops.contentTruthy m.content = false →
      errorCheck ops m = .error .ERROR_CONTENT_NOT_PROVIDED) ∧
    (∀ e, ops.contentTruthy m.content = true →
      ops.streamErrorCheck m.content = .error e →
      errorCheck ops m = .error (.nested e)) ∧
    (ops.contentTruthy m.content = true →
      ops.streamErrorCheck m.content = .ok () →
      ops.requestTruthy m.request = false →
      errorCheck ops m = .error .ERROR_MC_NOT_PROVIDED) ∧
    (∀ e, ops.contentTruthy m.content = true →
      ops.streamErrorCheck m.content = .ok () →
      ops.requestTruthy m.request = true →
      ops.mcErrorCheck m.request = .error e →
      errorCheck ops m = .error (.nested e)) ∧
    (ops.contentTruthy m.content = true →
      ops.streamErrorCheck m.content = .ok () →
      ops.requestTruthy m.request = true →
      ops.mcErrorCheck m.request = .ok () →
      ops.verifyData m = false →
      errorCheck ops m = .error .ERROR_CONTENT_UNVERIFIABLE) := by
  cases h1 : ops.contentTruthy m.content with
  | false => simp [errorCheck, h1]
  | true =>
    cases h2 : ops.streamErrorCheck m.content with
    | error e => simp [errorCheck, h1, h2]
    | ok u =>
      cases u
      cases h3 : ops.requestTruthy m.request with
      | false => simp [errorCheck, h1, h2, h3]
      | true =>
        cases h4 : ops.mcErrorCheck m.request with
        | error e => simp [errorCheck, h1, h2, h3, h4]
        | ok u =>
          cases u
          cases h5 : ops.verifyData m with
          | false => simp [errorCheck, h1, h2, h3, h4, h5]
          | true => simp [errorCheck, h1, h2, h3, h4, h5]

/-- Witness for C2: on a Mark with `undefined` content the check fails with
`ERROR_CONTENT_NOT_PROVIDED`. -/
theorem errorCheck_cases_witness :
    errorCheck (demoOps (fun _ => .ok ()) (fun _ => .ok ()) (fun _ => true))
        { content := .undef, request := .null } =
      .error .ERROR_CONTENT_NOT_PROVIDED :=
  (errorCheck_cases
    (demoOps (fun _ => .ok ()) (fun _ => .ok ()) (fun _ => true))
    { content := .undef, request := .null }).2.1 rfl

/-- Claim C3: when the content field is missing (falsy), `errorCheck` fails
with `ERROR_CONTENT_NOT_PROVIDED` whatever the request-side validator, the
request truthiness test and `verifyData` would say: the result does not
depend on those three collaborators at all. -/
theorem errorCheck_content_missing (ops : MarkOps C R V ε Contents SchemaDef)
    (m : IMark C R) (h : ops.contentTruthy m.content = false)
    (rt : R → Bool) (rc : R → Except ε Unit) (vd : IMark C R → Bool) :
    errorCheck { ops with requestTruthy := rt, mcErrorCheck := rc,
                          verifyData := vd } m =
      .error .ERROR_CONTENT_NOT_PROVIDED := by
  simp [errorCheck, h]

/-- Witness for C3: content `null`, with a request validator that rejects
everything and a cross-check that rejects everything; the result is still
`ERROR_CONTENT_NOT_PROVIDED`. -/
theorem errorCheck_content_missing_witness :
    errorCheck { demoOps (fun _ => .ok ()) (fun _ => .ok ()) (fun _ => true)
                   with requestTruthy := fun _ => true,
                        mcErrorCheck := fun _ => .error (),
                        verifyData := fun _ => false }
        { content := .null, request := .object 5 } =
      .error .ERROR_CONTENT_NOT_PROVIDED :=
  errorCheck_content_missing
    (demoOps (fun _ => .ok ()) (fun _ => .ok ()) (fun _ => true))
    { content := .null, request := .object 5 } rfl
    (fun _ => true) (fun _ => .error ()) (fun _ => false)

/-- Claim C4: `compress` fails exactly when `errorCheck` fails, with the
same error; when `errorCheck` passes it returns the two-element array with
the compressed request at position 0 and the compressed content at
position 1. -/
theorem compress_spec (ops : MarkOps C R V ε Contents SchemaDef)
    (m : IMark C R) :
    (∀ e, errorCheck ops m = .error e → compress ops m = .error e) ∧
    (errorCheck ops m = .ok () →
      compress ops m =
        .ok [ops.mcCompress m.request, ops.streamCompress m.content]) ∧
    (∀ l, compress ops m = .ok l → errorCheck ops m = .ok ()) := by
  cases h : errorCheck ops m with
  | error e => simp [compress, h]
  | ok u => cases u; simp [compress, h]

/-- Witness for C4: a well-formed Mark compresses to the ordered pair of
its identically encoded request and content. -/
theorem compress_spec_witness :
    compress (demoOps (fun _ => .ok ()) (fun _ => .ok ()) (fun _ => true))
        { content := .number 3, request := .str "req" } =
      .ok [.str "req", .number 3] :=
  (compress_spec
    (demoOps (fun _ => .ok ()) (fun _ => .ok ()) (fun _ => true))
    { content := .number 3, request := .str "req" }).2.1 rfl

/-- Claim C5: `decompress` rejects every input that is not an array of
length exactly 2 with `ERROR_DECOMPRESSION_ARRAY`, and on a two-element
array returns the Mark whose request decodes position 0 and whose content
decodes position 1. -/
theorem decompress_spec (ops : MarkOps C R V ε Contents SchemaDef) :
    (decompress ops (V := V) .nonArray =
      .error (.ERROR_DECOMPRESSION_ARRAY "Cord Mark")) ∧
    (∀ xs : List V, xs.length ≠ 2 →
      decompress ops (.arr xs) =
        .error (.ERROR_DECOMPRESSION_ARRAY "Cord Mark")) ∧
    (∀ a b : V, decompress ops (.arr [a, b]) =
      .ok { request := ops.mcDecompress a,
            content := ops.streamDecompress b }) := by
  refine ⟨rfl, ?_, fun a b => rfl⟩
  intro xs h
  simp [decompress, h]

/-- Witness for C5: the empty array, a singleton, a three-element array and
a non-array value are all rejected, and a pair decodes positionally. -/
theorem decompress_spec_witness :
    (decompress (demoOps (fun _ => .ok ()) (fun _ => .ok ()) (fun _ => true))
        (.arr []) = .error (.ERROR_DECOMPRESSION_ARRAY "Cord Mark")) ∧
    (decompress (demoOps (fun _ => .ok ()) (fun _ => .ok ()) (fun _ => true))
        (.arr [.null]) = .error (.ERROR_DECOMPRESSION_ARRAY "Cord Mark")) ∧
    (decompress (demoOps (fun _ => .ok ()) (fun _ => .ok ()) (fun _ => true))
        (.arr [.null, .null, .null]) =
      .error (.ERROR_DECOMPRESSION_ARRAY "Cord Mark")) ∧
    (decompress (demoOps (fun _ => .ok ()) (fun _ => .ok ()) (fun _ => true))
        .nonArray = .error (.ERROR_DECOMPRESSION_ARRAY "Cord Mark")) ∧
    (decompress (demoOps (fun _ => .ok ()) (fun _ => .ok ()) (fun _ => true))
        (.arr [.str "a", .str "b"]) =
      .ok { request := .str "a", content := .str "b" }) :=
  ⟨(decompress_spec
      (demoOps (fun _ => .ok ()) (fun _ => .ok ()) (fun _ => true))).2.1
      [] (by decide),
   (decompress_spec
      (demoOps (fun _ => .ok ()) (fun _ => .ok ()) (fun _ => true))).2.1
      [.null] (by decide),
   (decompress_spec
      (demoOps (fun _ => .ok ()) (fun _ => .ok ()) (fun _ => true))).2.1
      [.null, .null, .null] (by decide),
   (decompress_spec
      (demoOps (fun _ => .ok ()) (fun _ => .ok ()) (fun _ => true))).1,
   (decompress_spec
      (demoOps (fun _ => .ok ()) (fun _ => .ok ()) (fun _ => true))).2.2
      (.str "a") (.str "b")⟩

/-- Claim C6: every error raised by `decompress` is an
`ERROR_DECOMPRESSION_ARRAY` whose string identifies the Mark entity: the
source passes the literal "Cord Mark", which contains "Mark". -/
theorem decompress_error_names_mark (ops : MarkOps C R V ε Contents SchemaDef)
    (input : JsInput V) (e : SDKError ε)
    (hfail : decompress ops input = .error e) :
    ∃ pre post, e = .ERROR_DECOMPRESSION_ARRAY (pre ++ "Mark" ++ post) ∧
      pre ++ "Mark" ++ post = "Cord Mark" := by
  refine ⟨"Cord ", "", ?_, by decide⟩
  cases input with
  | nonArray =>
    simp only [decompress, Except.error.injEq] at hfail
    simp [← hfail]
  | arr xs =>
    by_cases h : xs.length = 2
    · simp [decompress, h] at hfail
    · simp only [decompress, dif_neg h, Except.error.injEq] at hfail
      simp [← hfail]

/-- Witness for C6: decompressing a singleton array fails with an error
naming "Cord Mark". -/
theorem decompress_error_names_mark_witness :
    ∃ pre post,
      (SDKError.ERROR_DECOMPRESSION_ARRAY "Cord Mark" : SDKError Unit) =
        .ERROR_DECOMPRESSION_ARRAY (pre ++ "Mark" ++ post) ∧
      pre ++ "Mark" ++ post = "Cord Mark" :=
  decompress_error_names_mark
    (demoOps (fun _ => .ok ()) (fun _ => .ok ()) (fun _ => true))
    (.arr [.null]) (.ERROR_DECOMPRESSION_ARRAY "Cord Mark") rfl

/-- Claim C7: `verifyStructure` fails with exactly the error `errorCheck`
raises on a malformed Mark; when `errorCheck` passes it returns the verdict
of the external schema matcher on `mark.request.content.contents` and
`schema.schema`, unchanged. -/
theorem verifyStructure_spec (ops : MarkOps C R V ε Contents SchemaDef)
    (m : IMark C R) (schema : ISchema SchemaDef) :
    (∀ e, errorCheck ops m = .error e →
      verifyStructure ops m schema = .error e) ∧
    (errorCheck ops m = .ok () →
      verifyStructure ops m schema =
        .ok (ops.verifyContentProperties
          (ops.requestContentContents m.request) schema.schema)) := by
  cases h : errorCheck ops m with
  | error e => simp [verifyStructure, h]
  | ok u => cases u; simp [verifyStructure, h]

/-- Witness for C7: on a well-formed Mark the matcher verdict (here: the
forwarded contents 0 equal the schema definition 0) comes back unchanged. -/
theorem verifyStructure_spec_witness :
    verifyStructure
        (demoOps (fun _ => .ok ()) (fun _ => .ok ()) (fun _ => true))
        { content := .number 3, request := .str "req" } { schema := 0 } =
      .ok true :=
  (verifyStructure_spec
    (demoOps (fun _ => .ok ()) (fun _ => .ok ()) (fun _ => true))
    { content := .number 3, request := .str "req" } { schema := 0 }).2 rfl

/-- Claim C8: `decompress` never re-runs `errorCheck` on its result: any
two-element array decompresses successfully, even when the reconstructed
Mark itself fails `errorCheck`. -/
theorem decompress_no_revalidation (ops : MarkOps C R V ε Contents SchemaDef)
    (a b : V) (e : SDKError ε)
    (_hbad : errorCheck ops
        { request := ops.mcDecompress a, content := ops.streamDecompress b } =
      .error e) :
    decompress ops (.arr [a, b]) =
      .ok { request := ops.mcDecompress a,
            content := ops.streamDecompress b } := rfl

/-- Witness for C8: with a cross-check that rejects everything, the pair
still decompresses into a Mark that `errorCheck` would reject. -/
theorem decompress_no_revalidation_witness :
    decompress (demoOps (fun _ => .ok ()) (fun _ => .ok ()) (fun _ => false))
        (.arr [.str "a", .str "b"]) =
      .ok { request := .str "a", content := .str "b" } :=
  decompress_no_revalidation
    (demoOps (fun _ => .ok ()) (fun _ => .ok ()) (fun _ => false))
    (.str "a") (.str "b") .ERROR_CONTENT_UNVERIFIABLE rfl

/-- Claim C1: for every Mark accepted by `errorCheck`, decompressing its
compressed form reconstructs the very same Mark, provided each external
codec satisfies its own decompress-after-compress law. -/
theorem decompress_compress_roundtrip (ops : MarkOps C R V ε Contents SchemaDef)
    (m : IMark C R)
    (hreq : ∀ r, ops.mcDecompress (ops.mcCompress r) = r)
    (hcon : ∀ c, ops.streamDecompress (ops.streamCompress c) = c)
    (hok : errorCheck ops m = .ok ()) :
    ∃ l, compress ops m = .ok l ∧ decompress ops (.arr l) = .ok m := by
  refine ⟨[ops.mcCompress m.request, ops.streamCompress m.content], ?_, ?_⟩
  · simp [compress, hok]
  · simp [decompress, hreq, hcon]

/-- Witness for C1: a concrete valid Mark round-trips through the codec
built from identity sub-codecs. -/
theorem decompress_compress_roundtrip_witness :
    ∃ l, compress (demoOps (fun _ => .ok ()) (fun _ => .ok ()) (fun _ => true))
        { content := .number 3, request := .str "req" } = .ok l ∧
      decompress (demoOps (fun _ => .ok ()) (fun _ => .ok ()) (fun _ => true))
        (.arr l) = .ok { content := .number 3, request := .str "req" } :=
  decompress_compress_roundtrip
    (demoOps (fun _ => .ok ()) (fun _ => .ok ()) (fun _ => true))
    { content := .number 3, request := .str "req" }
    (fun _ => rfl) (fun _ => rfl) rfl

/-- Counterexample to C10 as stated: a Mark with truthy content and falsy
request does not always fail with `ERROR_MC_NOT_PROVIDED` — when the
content-stream validator rejects the (truthy) content, the propagated
nested error wins, because the content step runs first. -/
theorem errorCheck_truthiness_counterexample :
    jsTruthy (.number 7) = true ∧ jsTruthy .null = false ∧
    errorCheck (demoOps (fun _ => .error ()) (fun _ => .ok ()) (fun _ => true))
        { content := .number 7, request := .null } = .error (.nested ()) ∧
    (SDKError.nested () : SDKError Unit) ≠ .ERROR_MC_NOT_PROVIDED :=
  ⟨rfl, rfl, rfl, by decide⟩

/-- Claim C10 (amended): the guards are JavaScript truthiness, not strict
field presence.  With the truthiness tests instantiated to `jsTruthy`:
`undefined`, `null`, `0`, the empty string and `false` are all falsy; any
Mark with falsy content fails with `ERROR_CONTENT_NOT_PROVIDED`; and any
Mark with truthy content that the stream validator accepts but with falsy
request fails with `ERROR_MC_NOT_PROVIDED`. -/
theorem errorCheck_truthiness
    (ops : MarkOps JsValue JsValue V ε Contents SchemaDef)
    (hct : ops.contentTruthy = jsTruthy) (hrt : ops.requestTruthy = jsTruthy)
    (m : IMark JsValue JsValue) :
    (jsTruthy .undef = false ∧ jsTruthy .null = false ∧
      jsTruthy (.number 0) = false ∧ jsTruthy (.str "") = false ∧
      jsTruthy (.boolean false) = false) ∧
    (jsTruthy m.content = false →
      errorCheck ops m = .error .ERROR_CONTENT_NOT_PROVIDED) ∧
    (jsTruthy m.content = true → ops.streamErrorCheck m.content = .ok () →
      jsTruthy m.request = false →
      errorCheck ops m = .error .ERROR_MC_NOT_PROVIDED) := by
  refine ⟨by decide, ?_, ?_⟩
  · intro h
    simp [errorCheck, hct, h]
  · intro h1 h2 h3
    simp [errorCheck, hct, hrt, h1, h2, h3]

/-- Witness for C10 (amended): content `0` is rejected as not provided, and
a Mark with truthy, valid content but request `""` is rejected as missing
its request. -/
theorem errorCheck_truthiness_witness :
    (errorCheck (demoOps (fun _ => .ok ()) (fun _ => .ok ()) (fun _ => true))
        { content := .number 0, request := .object 1 } =
      .error .ERROR_CONTENT_NOT_PROVIDED) ∧
    (errorCheck (demoOps (fun _ => .ok ()) (fun _ => .ok ()) (fun _ => true))
        { content := .object 1, request := .str "" } =
      .error .ERROR_MC_NOT_PROVIDED) :=
  ⟨(errorCheck_truthiness
      (demoOps (fun _ => .ok ()) (fun _ => .ok ()) (fun _ => true))
      rfl rfl { content := .number 0, request := .object 1 }).2.1 rfl,
   (errorCheck_truthiness
      (demoOps (fun _ => .ok ()) (fun _ => .ok ()) (fun _ => true))
      rfl rfl { content := .object 1, request := .str "" }).2.2 rfl rfl rfl⟩

end MarkUtils
